import Mathlib

/-!
# startdde display: scale-factor advisor and Manager operations

A shallow embedding of `display/display.go` (`calcMaxScaleFactor`,
`AdjustScaleFactor`) and `display/manager_ifc.go` (`SwitchMode`, `ApplyChanges`,
`ResetChanges`, `Save`).

## Numbers

The Go code computes on `float64`.  The embedding computes on `ℚ`; on every finite
input both give the same outcome:

* every step of `scaleList` is a multiple of `1/4`, a binary64 value, and the result
  of `calcMaxScaleFactor` is one of the steps;
* `width / 1024.0` divides by a power of two;
* `height / 768.0` is rounded to nearest.  Rounding is monotone, so a step `s` with
  `s <= height / 768` has `s <= fl(height / 768)`.  When `height < 768 * s`, the
  binary64 value `height` lies at least one unit in the last place below the integer
  `768 * s`, so the quotient lies more than half a unit in the last place below `s`
  and rounds to a value below `s`;
* the caller `AdjustScaleFactor` passes `uint16` values converted with `float64(..)`,
  and a stored scale factor read from JSON is finite.

A Go run-time panic (slice index out of range, assignment to an entry of a nil map) is
the value `none` or the outcome `panicked`.
-/

namespace Display

/-! ## display.go -/

/-- Constant `MinScreenWidth = 1024.0`. -/
def MinScreenWidth : ℚ := 1024.0

/-- Constant `MinScreenHeight = 768.0`. -/
def MinScreenHeight : ℚ := 768.0

/-- The local `scaleList` of `calcMaxScaleFactor`. -/
def scaleList : List ℚ := [1.0, 1.25, 1.5, 1.75, 2.0, 2.25, 2.5, 2.75, 3.0]

/-- Go slice indexing `l[i]` with a signed index: `none` is the index-out-of-range panic. -/
def sliceIndex (l : List ℚ) (i : Int) : Option ℚ :=
  if i < 0 then none else l[i.toNat]?

/-- The value `maxScale` computed by lines 78-85 of `calcMaxScaleFactor`. -/
def maxScaleOf (width height : ℚ) : ℚ :=
  let maxWScale := width / MinScreenWidth
  let maxHScale := height / MinScreenHeight
  if maxWScale < maxHScale then maxWScale else maxHScale

/-- The loop `for ; scaleList[idx] <= maxScale; idx++ {}` started at `idx`: the index at
which it stops, or `none` when evaluating `scaleList[idx]` panics (the run-time bounds
check `idx < len(scaleList)` fails). -/
def scaleLoop (maxScale : ℚ) (idx : Nat) : Option Nat :=
  if h : idx < scaleList.length then
    if scaleList[idx] ≤ maxScale then scaleLoop maxScale (idx + 1) else some idx
  else none
termination_by scaleList.length - idx

/-- Function `calcMaxScaleFactor(width, height float64) float64`. -/
def calcMaxScaleFactor (width height : ℚ) : Option ℚ :=
  match scaleLoop (maxScaleOf width height) 0 with
  | none => none
  | some idx => sliceIndex scaleList ((idx : Int) - 1)

/-- A Go `map[string]float64`: `none` is the nil map, `some kvs` a map holding the pairs
of `kvs` (looked up by first match). -/
abbrev ScaleFactors := Option (List (String × ℚ))

/-- Go map read `factors[key]`: the zero value when the key is absent or the map is nil. -/
def ScaleFactors.read (factors : ScaleFactors) (key : String) : ℚ :=
  match factors with
  | none => 0
  | some kvs => (kvs.lookup key).getD 0

/-- Go map assignment `factors[key] = v`: `none` is the panic on assignment to a nil map. -/
def ScaleFactors.assign (factors : ScaleFactors) (key : String) (v : ℚ) : Option ScaleFactors :=
  match factors with
  | none => none
  | some kvs => some (some ((key, v) :: kvs.filter (fun kv => kv.1 ≠ key)))

/-- What one run of `AdjustScaleFactor` does: it returns early because `GetScaleFactors`
failed, it panics, or it reaches the call `h.SetScaleFactors(scaleFactors)`. -/
inductive AdjustOutcome where
  | getFailed (err : String)
  | panicked
  | handed (factors : ScaleFactors)
deriving DecidableEq

/-- Method `AdjustScaleFactor(width, height uint16)`.  `got` is the result of the D-Bus
round trip `h.GetScaleFactors()`; `width` and `height` are the `uint16` arguments. -/
def AdjustScaleFactor (got : Except String ScaleFactors) (width height : Nat) : AdjustOutcome :=
  match got with
  | .error err => .getFailed err
  | .ok scaleFactors =>
    let scaleFactor := scaleFactors.read "ALL"
    match calcMaxScaleFactor (width : ℚ) (height : ℚ) with
    | none => .panicked
    | some maxScaleFactor =>
      let scaleFactor :=
        if scaleFactor > maxScaleFactor then maxScaleFactor
        else if scaleFactor < 1.0 then 1.0
        else scaleFactor
      match scaleFactors.assign "ALL" scaleFactor with
      | none => .panicked
      | some scaleFactors => .handed scaleFactors

/-! ## manager_ifc.go

The `Manager` type, its constants and the methods that `manager_ifc.go` calls are
declared in files outside the given sources.  The embedding keeps the fields that
`manager_ifc.go` reads or writes, takes the absent methods as the fields of `Collab`,
and returns with every result the list of calls made, in order.  Locks are omitted:
one call runs at a time. -/

/-- Modelled from the spec: `MonitorBaseInfo`, the persisted subset of a monitor's
attributes (name, enabled, position, resolution); the Go declaration is absent. -/
structure MonitorBaseInfo where
  Name : String
  Enabled : Bool
  X : Int
  Y : Int
  Width : Nat
  Height : Nat
deriving DecidableEq

/-- Modelled from the spec: `Monitor`, one output with its name, enabled flag, position
and resolution; the Go declaration is absent. -/
structure Monitor where
  Name : String
  Enabled : Bool
  X : Int
  Y : Int
  Width : Nat
  Height : Nat
deriving DecidableEq

/-- Type `configMonitor`, with the two fields `Save` fills and `ResetChanges` reads. -/
structure configMonitor where
  Primary : String
  BaseInfos : List MonitorBaseInfo
deriving DecidableEq

/-- The in-memory mapping of `dpy.config`, fingerprint to entry. -/
abbrev ConfigStore := List (String × configMonitor)

/-- Modelled from the spec: `ConfigStore.get(fingerprint)`, the entry stored under the
key or not-found (`nil`); the Go method is absent. -/
def ConfigStore.get (cfg : ConfigStore) (id : String) : Option configMonitor :=
  cfg.lookup id

/-- Modelled from the spec: `ConfigStore.set(fingerprint, entry)` upserts, overwriting
any existing entry for that fingerprint; the Go method is absent. -/
def ConfigStore.set (cfg : ConfigStore) (id : String) (entry : configMonitor) : ConfigStore :=
  (id, entry) :: cfg.filter (fun kv => kv.1 ≠ id)

/-- The fields of `Manager` that `manager_ifc.go` uses. -/
structure Manager where
  HasChanged : Bool
  DisplayMode : Nat
  Primary : String
  Monitors : List Monitor
  outputInfos : List String
  config : ConfigStore
deriving DecidableEq

/-- A call made by a method of `manager_ifc.go`. -/
inductive Call where
  | switchToMirror
  | switchToExtend
  | switchToOnlyOne (name : String)
  | switchToCustom
  | setPropDisplayMode (mode : Nat)
  | Save
  | configGet (key : String)
  | configSet (id : String) (entry : configMonitor)
  | configWriteFile
  | updateMonitorFromBaseInfo (info : MonitorBaseInfo)
  | doSetPrimary (name : String) (flag : Bool)
  | doApply (flag : Bool)
  | rotateInputPointor
deriving DecidableEq

/-- The calls that write to the ConfigStore. -/
def Call.isStoreWrite : Call → Bool
  | .configSet _ _ => true
  | .configWriteFile => true
  | _ => false

/-- The constants and methods used by `manager_ifc.go` whose Go code is absent.  A method
that can fail returns its error (`none` is a nil error) with the state it leaves. -/
structure Collab where
  DisplayModeMirror : Nat
  DisplayModeExtend : Nat
  DisplayModeOnlyOne : Nat
  DisplayModeCustom : Nat
  getMonitorsId : List Monitor → String
  getBaseInfos : List Monitor → List MonitorBaseInfo
  getByName : List Monitor → String → Option Monitor
  switchToMirror : Manager → Option String × Manager
  switchToExtend : Manager → Option String × Manager
  switchToOnlyOne : String → Manager → Option String × Manager
  switchToCustom : Manager → Option String × Manager
  updateMonitorFromBaseInfo : Option Monitor → MonitorBaseInfo → Manager → Manager
  doSetPrimary : String → Bool → Manager → Option String × Manager
  doApply : Bool → Manager → Option String × Manager
  rotateInputPointor : Manager → Manager
  writeFile : ConfigStore → Option String

/-- The result of a method: the returned error (`none` is nil), the state left, and the
calls made. -/
structure Outcome where
  err : Option String
  dpy : Manager
  calls : List Call
deriving DecidableEq

/-- Modelled from the spec: `setPropDisplayMode(mode)` sets the DisplayMode property of
the Manager; the Go method is absent. -/
def setPropDisplayMode (mode : Nat) (dpy : Manager) : Manager :=
  { dpy with DisplayMode := mode }

/-- Method `Save`. -/
def Save (c : Collab) (dpy : Manager) : Outcome :=
  if dpy.outputInfos.length ≠ 1 ∧ dpy.DisplayMode ≠ c.DisplayModeCustom then
    ⟨none, dpy, []⟩
  else
    let id := c.getMonitorsId dpy.Monitors
    if id.length = 0 then
      ⟨some "No output connected", dpy, []⟩
    else
      let cMonitor : configMonitor := ⟨dpy.Primary, c.getBaseInfos dpy.Monitors⟩
      let dpy1 : Manager := { dpy with config := dpy.config.set id cMonitor }
      ⟨c.writeFile dpy1.config, dpy1, [.configSet id cMonitor, .configWriteFile]⟩

/-- The `switch mode` statement of `SwitchMode`: the mode-specific switch that runs,
with its result, or `none` for the `default` branch. -/
def modeSwitch (c : Collab) (mode : Nat) (name : String) (dpy : Manager) :
    Option (Call × Option String × Manager) :=
  if mode = c.DisplayModeMirror then some (.switchToMirror, c.switchToMirror dpy)
  else if mode = c.DisplayModeExtend then some (.switchToExtend, c.switchToExtend dpy)
  else if mode = c.DisplayModeOnlyOne then some (.switchToOnlyOne name, c.switchToOnlyOne name dpy)
  else if mode = c.DisplayModeCustom then some (.switchToCustom, c.switchToCustom dpy)
  else none

/-- Method `SwitchMode(mode uint8, name string)`. -/
def SwitchMode (c : Collab) (mode : Nat) (name : String) (dpy : Manager) : Outcome :=
  match modeSwitch c mode name dpy with
  | none => ⟨some ("Invalid display mode: " ++ toString mode), dpy, []⟩
  | some (call, some err, dpy1) => ⟨some err, dpy1, [call]⟩
  | some (call, none, dpy1) =>
    let dpy2 := setPropDisplayMode mode dpy1
    let r := Save c dpy2
    ⟨r.err, r.dpy, [call, .setPropDisplayMode mode, .Save] ++ r.calls⟩

/-- Method `ApplyChanges`. -/
def ApplyChanges (c : Collab) (dpy : Manager) : Outcome :=
  if !dpy.HasChanged then
    ⟨none, dpy, []⟩
  else
    match c.doApply false dpy with
    | (some err, dpy1) => ⟨some err, dpy1, [.doApply false]⟩
    | (none, dpy1) => ⟨none, c.rotateInputPointor dpy1, [.doApply false, .rotateInputPointor]⟩

/-- Method `ResetChanges`.  The lookup key is the string literal `"id"`, as in the
source line `cMonitor := dpy.config.get("id")`. -/
def ResetChanges (c : Collab) (dpy : Manager) : Outcome :=
  if !dpy.HasChanged then
    ⟨none, dpy, []⟩
  else
    let id := c.getMonitorsId dpy.Monitors
    if id.length = 0 then
      ⟨some "No output connected", dpy, []⟩
    else
      match dpy.config.get "id" with
      | none => ⟨some ("No config found for \x27" ++ id ++ "\x27"), dpy, [.configGet "id"]⟩
      | some cMonitor =>
        let dpy1 := cMonitor.BaseInfos.foldl
          (fun d info => c.updateMonitorFromBaseInfo (c.getByName d.Monitors info.Name) info d) dpy
        let dpy2 := (c.doSetPrimary cMonitor.Primary true dpy1).2
        let r := c.doApply false dpy2
        ⟨r.1, r.2, [.configGet "id"] ++ cMonitor.BaseInfos.map .updateMonitorFromBaseInfo
          ++ [.doSetPrimary cMonitor.Primary true, .doApply false]⟩

/-! ## Example collaborators and states

Concrete values on which the methods are evaluated. -/

/-- Modelled from the spec: a set of collaborators in which the fingerprint is the
comma-joined list of monitor names, `Mirror` fails on an empty monitor set, `OnlyOne`
fails on an unknown name, the hardware commit succeeds and clears the dirty flag, and
the file write succeeds.  The mode constants are Custom 0, Mirror 1, Extend 2, OnlyOne 3. -/
def sampleCollab : Collab where
  DisplayModeMirror := 1
  DisplayModeExtend := 2
  DisplayModeOnlyOne := 3
  DisplayModeCustom := 0
  getMonitorsId := fun ms => ",".intercalate (ms.map (fun m => m.Name))
  getBaseInfos := fun ms => ms.map (fun m => ⟨m.Name, m.Enabled, m.X, m.Y, m.Width, m.Height⟩)
  getByName := fun ms name => ms.find? (fun m => m.Name == name)
  switchToMirror := fun d =>
    if d.Monitors.isEmpty then (some "no monitors connected", d)
    else (none, { d with Monitors := d.Monitors.map (fun m => { m with Enabled := true, X := 0, Y := 0 }) })
  switchToExtend := fun d => (none, d)
  switchToOnlyOne := fun name d =>
    match d.Monitors.find? (fun m => m.Name == name) with
    | none => (some "unknown monitor", d)
    | some _ =>
      (none, { d with Monitors := d.Monitors.map (fun m => { m with Enabled := m.Name == name }) })
  switchToCustom := fun d => (none, d)
  updateMonitorFromBaseInfo := fun m info d =>
    match m with
    | none => d
    | some _ =>
      { d with Monitors := d.Monitors.map (fun x =>
          if x.Name = info.Name then ⟨info.Name, info.Enabled, info.X, info.Y, info.Width, info.Height⟩
          else x) }
  doSetPrimary := fun name _ d => (none, { d with Primary := name })
  doApply := fun _ d => (none, { d with HasChanged := false })
  rotateInputPointor := fun d => d
  writeFile := fun _ => none

/-- Monitor `A`, 1920x1080 at the origin. -/
def monitorA : Monitor := ⟨"A", true, 0, 0, 1920, 1080⟩

/-- Monitor `B`, 1280x1024 to the right of `A`. -/
def monitorB : Monitor := ⟨"B", true, 1920, 0, 1280, 1024⟩

/-- The entry stored for the monitors `A` and `B`: primary `A` and both base infos. -/
def storedAB : configMonitor :=
  ⟨"A", [⟨"A", true, 0, 0, 1920, 1080⟩, ⟨"B", true, 1920, 0, 1280, 1024⟩]⟩

/-- Two monitors in mode Extend (2), nothing stored, nothing changed. -/
def extendDpy : Manager :=
  { HasChanged := false, DisplayMode := 2, Primary := "A", Monitors := [monitorA, monitorB],
    outputInfos := ["A", "B"], config := [] }

/-- The same two monitors in mode Custom (0), nothing stored. -/
def customDpy : Manager := { extendDpy with DisplayMode := 0 }

/-- The state of the reset scenario: an entry is stored under the fingerprint `A,B`,
monitor `B` has since been set to 800x600, and the dirty flag is set. -/
def resetDpy : Manager :=
  { HasChanged := true, DisplayMode := 0, Primary := "B",
    Monitors := [monitorA, { monitorB with Width := 800, Height := 600 }],
    outputInfos := ["A", "B"], config := [("A,B", storedAB)] }

/-- The state `resetDpy` with the same entry filed under the key `id` instead of the
fingerprint. -/
def resetDpyKeyId : Manager := { resetDpy with config := [("id", storedAB)] }

/-! ## Properties of `calcMaxScaleFactor` -/

/-- The step list with its entries written as fractions. -/
theorem scaleList_eq : scaleList = [1, 5/4, 3/2, 7/4, 2, 9/4, 5/2, 11/4, 3] := by
  norm_num [scaleList]

theorem scaleLoop_step (m : ℚ) (idx : Nat) (h : idx < scaleList.length) :
    scaleLoop m idx = if scaleList[idx] ≤ m then scaleLoop m (idx + 1) else some idx := by
  rw [scaleLoop]; simp [h]

theorem scaleLoop_out (m : ℚ) (idx : Nat) (h : scaleList.length ≤ idx) :
    scaleLoop m idx = none := by
  rw [scaleLoop]; simp [Nat.not_lt.mpr h]

/-- The loop started at index 0, unrolled over the nine steps. -/
theorem scaleLoop_zero (m : ℚ) :
    scaleLoop m 0 =
      if 1 ≤ m then if 5/4 ≤ m then if 3/2 ≤ m then if 7/4 ≤ m then if 2 ≤ m then
        if 9/4 ≤ m then if 5/2 ≤ m then if 11/4 ≤ m then if 3 ≤ m then none
        else some 8 else some 7 else some 6 else some 5 else some 4 else some 3
        else some 2 else some 1 else some 0 := by
  rw [scaleLoop_step m 0 (by decide), scaleLoop_step m 1 (by decide),
    scaleLoop_step m 2 (by decide), scaleLoop_step m 3 (by decide),
    scaleLoop_step m 4 (by decide), scaleLoop_step m 5 (by decide),
    scaleLoop_step m 6 (by decide), scaleLoop_step m 7 (by decide),
    scaleLoop_step m 8 (by decide), scaleLoop_out m 9 (by decide)]
  norm_num [scaleList]

theorem sliceIndex_zero_pred (l : List ℚ) : sliceIndex l (((0 : Nat) : Int) - 1) = none := by
  simp [sliceIndex]

theorem sliceIndex_succ_pred (l : List ℚ) (n : Nat) :
    sliceIndex l (((n + 1 : Nat) : Int) - 1) = l[n]? := by
  have h : ((n + 1 : Nat) : Int) - 1 = (n : Int) := by push_cast; ring
  rw [h]
  simp [sliceIndex]

/-- The value `maxScale` is the minimum of the two ratios. -/
theorem maxScaleOf_eq_min (width height : ℚ) :
    maxScaleOf width height = min (width / 1024) (height / 768) := by
  unfold maxScaleOf MinScreenWidth MinScreenHeight
  norm_num
  split_ifs with h
  · exact (min_eq_left h.le).symm
  · exact (min_eq_right (not_lt.mp h)).symm

/-- The result of `calcMaxScaleFactor` in closed form, by the interval that holds `maxScale`. -/
theorem calcMaxScaleFactor_cases (width height : ℚ) :
    calcMaxScaleFactor width height =
      if 1 ≤ maxScaleOf width height then if 5/4 ≤ maxScaleOf width height then
        if 3/2 ≤ maxScaleOf width height then if 7/4 ≤ maxScaleOf width height then
        if 2 ≤ maxScaleOf width height then if 9/4 ≤ maxScaleOf width height then
        if 5/2 ≤ maxScaleOf width height then if 11/4 ≤ maxScaleOf width height then
        if 3 ≤ maxScaleOf width height then none
        else some (11/4) else some (5/2) else some (9/4) else some 2 else some (7/4)
        else some (3/2) else some (5/4) else some 1 else none := by
  unfold calcMaxScaleFactor
  rw [scaleLoop_zero]
  generalize maxScaleOf width height = b
  by_cases h0 : 1 ≤ b
  swap
  · rw [if_neg h0, if_neg h0]
    exact sliceIndex_zero_pred scaleList
  rw [if_pos h0, if_pos h0]
  by_cases h1 : 5/4 ≤ b
  swap
  · rw [if_neg h1, if_neg h1]
    exact (sliceIndex_succ_pred scaleList 0).trans (by rw [scaleList_eq]; rfl)
  rw [if_pos h1, if_pos h1]
  by_cases h2 : 3/2 ≤ b
  swap
  · rw [if_neg h2, if_neg h2]
    exact (sliceIndex_succ_pred scaleList 1).trans (by rw [scaleList_eq]; rfl)
  rw [if_pos h2, if_pos h2]
  by_cases h3 : 7/4 ≤ b
  swap
  · rw [if_neg h3, if_neg h3]
    exact (sliceIndex_succ_pred scaleList 2).trans (by rw [scaleList_eq]; rfl)
  rw [if_pos h3, if_pos h3]
  by_cases h4 : 2 ≤ b
  swap
  · rw [if_neg h4, if_neg h4]
    exact (sliceIndex_succ_pred scaleList 3).trans (by rw [scaleList_eq]; rfl)
  rw [if_pos h4, if_pos h4]
  by_cases h5 : 9/4 ≤ b
  swap
  · rw [if_neg h5, if_neg h5]
    exact (sliceIndex_succ_pred scaleList 4).trans (by rw [scaleList_eq]; rfl)
  rw [if_pos h5, if_pos h5]
  by_cases h6 : 5/2 ≤ b
  swap
  · rw [if_neg h6, if_neg h6]
    exact (sliceIndex_succ_pred scaleList 5).trans (by rw [scaleList_eq]; rfl)
  rw [if_pos h6, if_pos h6]
  by_cases h7 : 11/4 ≤ b
  swap
  · rw [if_neg h7, if_neg h7]
    exact (sliceIndex_succ_pred scaleList 6).trans (by rw [scaleList_eq]; rfl)
  rw [if_pos h7, if_pos h7]
  by_cases h8 : 3 ≤ b
  swap
  · rw [if_neg h8, if_neg h8]
    exact (sliceIndex_succ_pred scaleList 7).trans (by rw [scaleList_eq]; rfl)
  rw [if_pos h8, if_pos h8]

theorem mem_scaleList_iff (t : ℚ) :
    t ∈ scaleList ↔ ∃ j : ℕ, j ≤ 8 ∧ t = 1 + (j : ℚ) / 4 := by
  constructor
  · intro ht
    rw [scaleList_eq] at ht
    simp only [List.mem_cons, List.mem_singleton, List.not_mem_nil, or_false] at ht
    rcases ht with h | h | h | h | h | h | h | h | h
    · exact ⟨0, by norm_num, by rw [h]; norm_num⟩
    · exact ⟨1, by norm_num, by rw [h]; norm_num⟩
    · exact ⟨2, by norm_num, by rw [h]; norm_num⟩
    · exact ⟨3, by norm_num, by rw [h]; norm_num⟩
    · exact ⟨4, by norm_num, by rw [h]; norm_num⟩
    · exact ⟨5, by norm_num, by rw [h]; norm_num⟩
    · exact ⟨6, by norm_num, by rw [h]; norm_num⟩
    · exact ⟨7, by norm_num, by rw [h]; norm_num⟩
    · exact ⟨8, by norm_num, by rw [h]; norm_num⟩
  · rintro ⟨j, hj, rfl⟩
    rw [scaleList_eq]
    interval_cases j <;> norm_num

/-- The three outcomes of `calcMaxScaleFactor`: below the list (panic at index -1), at or
above the top of the list (panic at index 9), or the step `1 + k/4` whose interval
`[1 + k/4, 1 + (k+1)/4)` holds `maxScale`. -/
theorem calcMaxScaleFactor_spec (width height : ℚ) :
    (maxScaleOf width height < 1 ∧ calcMaxScaleFactor width height = none) ∨
    (3 ≤ maxScaleOf width height ∧ calcMaxScaleFactor width height = none) ∨
    ∃ k : ℕ, k < 8 ∧ calcMaxScaleFactor width height = some (1 + (k : ℚ) / 4) ∧
      1 + (k : ℚ) / 4 ≤ maxScaleOf width height ∧
      maxScaleOf width height < 1 + ((k : ℚ) + 1) / 4 := by
  rw [calcMaxScaleFactor_cases]
  generalize maxScaleOf width height = b
  by_cases h0 : 1 ≤ b
  swap
  · rw [if_neg h0]
    exact Or.inl ⟨not_le.mp h0, rfl⟩
  rw [if_pos h0]
  by_cases h1 : 5/4 ≤ b
  swap
  · rw [if_neg h1]
    refine Or.inr (Or.inr ⟨0, by norm_num, by norm_num, ?_, ?_⟩)
    · norm_num; linarith
    · norm_num; linarith
  rw [if_pos h1]
  by_cases h2 : 3/2 ≤ b
  swap
  · rw [if_neg h2]
    refine Or.inr (Or.inr ⟨1, by norm_num, by norm_num, ?_, ?_⟩)
    · norm_num; linarith
    · norm_num; linarith
  rw [if_pos h2]
  by_cases h3 : 7/4 ≤ b
  swap
  · rw [if_neg h3]
    refine Or.inr (Or.inr ⟨2, by norm_num, by norm_num, ?_, ?_⟩)
    · norm_num; linarith
    · norm_num; linarith
  rw [if_pos h3]
  by_cases h4 : 2 ≤ b
  swap
  · rw [if_neg h4]
    refine Or.inr (Or.inr ⟨3, by norm_num, by norm_num, ?_, ?_⟩)
    · norm_num; linarith
    · norm_num; linarith
  rw [if_pos h4]
  by_cases h5 : 9/4 ≤ b
  swap
  · rw [if_neg h5]
    refine Or.inr (Or.inr ⟨4, by norm_num, by norm_num, ?_, ?_⟩)
    · norm_num; linarith
    · norm_num; linarith
  rw [if_pos h5]
  by_cases h6 : 5/2 ≤ b
  swap
  · rw [if_neg h6]
    refine Or.inr (Or.inr ⟨5, by norm_num, by norm_num, ?_, ?_⟩)
    · norm_num; linarith
    · norm_num; linarith
  rw [if_pos h6]
  by_cases h7 : 11/4 ≤ b
  swap
  · rw [if_neg h7]
    refine Or.inr (Or.inr ⟨6, by norm_num, by norm_num, ?_, ?_⟩)
    · norm_num; linarith
    · norm_num; linarith
  rw [if_pos h7]
  by_cases h8 : 3 ≤ b
  swap
  · rw [if_neg h8]
    refine Or.inr (Or.inr ⟨7, by norm_num, by norm_num, ?_, ?_⟩)
    · norm_num; linarith
    · norm_num; linarith
  rw [if_pos h8]
  exact Or.inr (Or.inl ⟨h8, rfl⟩)

/-- A value returned by `calcMaxScaleFactor` is an element of the step list. -/
theorem calcMaxScaleFactor_mem (width height m : ℚ)
    (hm : calcMaxScaleFactor width height = some m) : m ∈ scaleList := by
  rcases calcMaxScaleFactor_spec width height with ⟨_, h⟩ | ⟨_, h⟩ | ⟨k, hk, h, _, _⟩
  · rw [h] at hm; cases hm
  · rw [h] at hm; cases hm
  · rw [h] at hm
    cases hm
    exact (mem_scaleList_iff _).mpr ⟨k, by omega, rfl⟩


theorem read_assign (kvs : List (String × ℚ)) (key : String) (v : ℚ) (out : ScaleFactors)
    (h : ScaleFactors.assign (some kvs) key v = some out) : out.read key = v := by
  simp only [ScaleFactors.assign, Option.some.injEq] at h
  subst h
  simp [ScaleFactors.read, List.lookup]

/-- C1: when the bound `b = min(width/1024, height/768)` satisfies `1.0 <= b < 3.0`,
`calcMaxScaleFactor(width, height)` returns a value, that value is an element of the step
list, it is `<= b`, and every element of the step list that is `<= b` is `<=` it. -/
theorem calcMaxScaleFactor_largest_step (width height : ℚ)
    (hlo : 1 ≤ min (width / 1024) (height / 768))
    (hhi : min (width / 1024) (height / 768) < 3) :
    ∃ s, calcMaxScaleFactor width height = some s ∧ s ∈ scaleList ∧
      s ≤ min (width / 1024) (height / 768) ∧
      ∀ t ∈ scaleList, t ≤ min (width / 1024) (height / 768) → t ≤ s := by
  rw [← maxScaleOf_eq_min] at hlo hhi ⊢
  rcases calcMaxScaleFactor_spec width height with ⟨h, _⟩ | ⟨h, _⟩ | ⟨k, hk, hc, hle, hlt⟩
  · exact absurd hlo (not_le.mpr h)
  · exact absurd hhi (not_lt.mpr h)
  · refine ⟨_, hc, (mem_scaleList_iff _).mpr ⟨k, by omega, rfl⟩, hle, ?_⟩
    intro t ht hb
    obtain ⟨j, _, rfl⟩ := (mem_scaleList_iff t).mp ht
    have hjk : (j : ℚ) < (k : ℚ) + 1 := by linarith
    have hjk2 : j < k + 1 := by exact_mod_cast hjk
    have hjk3 : (j : ℚ) ≤ (k : ℚ) := by exact_mod_cast Nat.lt_succ_iff.mp hjk2
    linarith

/-- C1, at the resolution 1024x768: the bound is 1.0 and the result is 1.0. -/
theorem calcMaxScaleFactor_largest_step_witness :
    calcMaxScaleFactor 1024 768 = some 1.0 ∧
    (1 : ℚ) ≤ min ((1024 : ℚ) / 1024) ((768 : ℚ) / 768) ∧
    min ((1024 : ℚ) / 1024) ((768 : ℚ) / 768) < 3 ∧
    ∃ s, calcMaxScaleFactor 1024 768 = some s ∧ s ∈ scaleList ∧
      s ≤ min ((1024 : ℚ) / 1024) ((768 : ℚ) / 768) ∧
      ∀ t ∈ scaleList, t ≤ min ((1024 : ℚ) / 1024) ((768 : ℚ) / 768) → t ≤ s :=
  ⟨by rw [calcMaxScaleFactor_cases, maxScaleOf_eq_min]; norm_num,
   by norm_num, by norm_num,
   calcMaxScaleFactor_largest_step 1024 768 (by norm_num) (by norm_num)⟩

/-- C2 as stated fails: `calcMaxScaleFactor(3840, 2160)` does not return 3.0. -/
theorem calcMaxScaleFactor_3840_2160_ne_three :
    calcMaxScaleFactor 3840 2160 ≠ some 3.0 := by
  rw [calcMaxScaleFactor_cases, maxScaleOf_eq_min]; norm_num

/-- C2 amended: `calcMaxScaleFactor(3840, 2160)` returns 2.75, the largest step that is
`<= min(3840/1024, 2160/768) = 2.8125`. -/
theorem calcMaxScaleFactor_3840_2160 :
    calcMaxScaleFactor 3840 2160 = some 2.75 ∧
    min ((3840 : ℚ) / 1024) ((2160 : ℚ) / 768) = 2.8125 := by
  rw [calcMaxScaleFactor_cases, maxScaleOf_eq_min]; norm_num

/-- When every step is `<=` the bound (the bound is `>= 3.0`) the loop of
`calcMaxScaleFactor` runs past the last index and the function panics. -/
theorem calcMaxScaleFactor_none_of_three_le (width height : ℚ)
    (hb : 3 ≤ min (width / 1024) (height / 768)) :
    scaleLoop (maxScaleOf width height) 0 = none ∧ calcMaxScaleFactor width height = none := by
  rw [← maxScaleOf_eq_min] at hb
  have h1 : (1 : ℚ) ≤ maxScaleOf width height := le_trans (by norm_num) hb
  have h2 : (5 / 4 : ℚ) ≤ maxScaleOf width height := le_trans (by norm_num) hb
  have h3 : (3 / 2 : ℚ) ≤ maxScaleOf width height := le_trans (by norm_num) hb
  have h4 : (7 / 4 : ℚ) ≤ maxScaleOf width height := le_trans (by norm_num) hb
  have h5 : (2 : ℚ) ≤ maxScaleOf width height := le_trans (by norm_num) hb
  have h6 : (9 / 4 : ℚ) ≤ maxScaleOf width height := le_trans (by norm_num) hb
  have h7 : (5 / 2 : ℚ) ≤ maxScaleOf width height := le_trans (by norm_num) hb
  have h8 : (11 / 4 : ℚ) ≤ maxScaleOf width height := le_trans (by norm_num) hb
  constructor
  · rw [scaleLoop_zero, if_pos h1, if_pos h2, if_pos h3, if_pos h4, if_pos h5, if_pos h6,
      if_pos h7, if_pos h8, if_pos hb]
  · rw [calcMaxScaleFactor_cases, if_pos h1, if_pos h2, if_pos h3, if_pos h4, if_pos h5,
      if_pos h6, if_pos h7, if_pos h8, if_pos hb]

/-- C3 on the code: at 3072x2304 the bound is exactly 3.0 and every step is `<=` it; the
loop runs past the last index (the read `scaleList[9]` panics) and `calcMaxScaleFactor`
returns no value instead of 3.0. -/
theorem calcMaxScaleFactor_top_panics :
    min ((3072 : ℚ) / 1024) ((2304 : ℚ) / 768) = 3.0 ∧
    (∀ t ∈ scaleList, t ≤ min ((3072 : ℚ) / 1024) ((2304 : ℚ) / 768)) ∧
    scaleLoop (maxScaleOf 3072 2304) 0 = none ∧
    calcMaxScaleFactor 3072 2304 = none := by
  refine ⟨by norm_num, ?_, ?_, ?_⟩
  · intro t ht
    obtain ⟨j, hj, rfl⟩ := (mem_scaleList_iff t).mp ht
    have hj2 : (j : ℚ) ≤ 8 := by exact_mod_cast hj
    norm_num
    linarith
  · exact (calcMaxScaleFactor_none_of_three_le 3072 2304 (by norm_num)).1
  · exact (calcMaxScaleFactor_none_of_three_le 3072 2304 (by norm_num)).2

/-- C10: for every width and height (non-negative or not) `calcMaxScaleFactor` returns a
value, that is both slice reads stay in range, exactly when
`1.0 <= min(width/1024, height/768) < 3.0`; and when `width < 1024` or `height < 768` the
loop stops at index 0, the read `scaleList[0 - 1]` is out of range and no value is
returned. -/
theorem calcMaxScaleFactor_in_range_iff (width height : ℚ) :
    ((∃ s, calcMaxScaleFactor width height = some s) ↔
      (1 ≤ min (width / 1024) (height / 768) ∧ min (width / 1024) (height / 768) < 3)) ∧
    (width < 1024 ∨ height < 768 →
      scaleLoop (maxScaleOf width height) 0 = some 0 ∧
      sliceIndex scaleList (((0 : Nat) : Int) - 1) = none ∧
      calcMaxScaleFactor width height = none) := by
  have hsmall : width < 1024 ∨ height < 768 → maxScaleOf width height < 1 := by
    intro h
    rw [maxScaleOf_eq_min]
    rcases h with h | h
    · exact lt_of_le_of_lt (min_le_left _ _) (by rw [div_lt_one (by norm_num)]; exact h)
    · exact lt_of_le_of_lt (min_le_right _ _) (by rw [div_lt_one (by norm_num)]; exact h)
  rw [← maxScaleOf_eq_min]
  refine ⟨?_, ?_⟩
  · rcases calcMaxScaleFactor_spec width height with ⟨h, hc⟩ | ⟨h, hc⟩ | ⟨k, hk, hc, hle, hlt⟩
    · rw [hc]
      exact ⟨fun hex => (by obtain ⟨s, hs⟩ := hex; cases hs),
        fun hb => absurd hb.1 (not_le.mpr h)⟩
    · rw [hc]
      exact ⟨fun hex => (by obtain ⟨s, hs⟩ := hex; cases hs),
        fun hb => absurd hb.2 (not_lt.mpr h)⟩
    · have hk0 : (0 : ℚ) ≤ (k : ℚ) := Nat.cast_nonneg k
      have hk2 : (k : ℚ) + 1 ≤ 8 := by exact_mod_cast hk
      exact ⟨fun _ => ⟨by linarith, by linarith⟩, fun _ => ⟨_, hc⟩⟩
  · intro h
    have hlt := hsmall h
    refine ⟨?_, sliceIndex_zero_pred scaleList, ?_⟩
    · rw [scaleLoop_zero, if_neg (not_le.mpr hlt)]
    · rw [calcMaxScaleFactor_cases, if_neg (not_le.mpr hlt)]

/-- C10, at the panel 800x600 the loop stops at index 0 and no value is returned; at
1920x1080 the bound is 1.40625 and a value is returned. -/
theorem calcMaxScaleFactor_in_range_iff_witness :
    ((800 : ℚ) < 1024 ∨ (600 : ℚ) < 768) ∧
    (scaleLoop (maxScaleOf 800 600) 0 = some 0 ∧
      sliceIndex scaleList (((0 : Nat) : Int) - 1) = none ∧
      calcMaxScaleFactor 800 600 = none) ∧
    (1 ≤ min ((1920 : ℚ) / 1024) ((1080 : ℚ) / 768) ∧
      min ((1920 : ℚ) / 1024) ((1080 : ℚ) / 768) < 3) ∧
    ∃ s, calcMaxScaleFactor 1920 1080 = some s :=
  ⟨Or.inl (by norm_num),
   (calcMaxScaleFactor_in_range_iff 800 600).2 (Or.inl (by norm_num)),
   ⟨by norm_num, by norm_num⟩,
   (calcMaxScaleFactor_in_range_iff 1920 1080).1.mpr ⟨by norm_num, by norm_num⟩⟩

/-- With a nil map from `GetScaleFactors` (no mapping stored) the assignment
`scaleFactors["ALL"] = scaleFactor` panics. -/
theorem AdjustScaleFactor_nil_map (width height : Nat) :
    AdjustScaleFactor (.ok none) width height = .panicked := by
  unfold AdjustScaleFactor
  cases calcMaxScaleFactor (width : ℚ) (height : ℚ) <;> rfl

/-- On a non-nil map the clamping works: when `calcMaxScaleFactor` returns a maximum `m`
for the geometry, for every non-nil mapping with "ALL" value `s` (0 when the key is
absent) `AdjustScaleFactor` reaches `SetScaleFactors` with a mapping whose "ALL" value
`v` satisfies `1.0 <= v <= m`, with `v = m` if `s > m`, `v = 1.0` if `s < 1.0`, and
`v = s` otherwise. -/
theorem AdjustScaleFactor_clamps (width height : Nat) (m : ℚ)
    (hm : calcMaxScaleFactor (width : ℚ) (height : ℚ) = some m)
    (kvs : List (String × ℚ)) :
    ∃ out, AdjustScaleFactor (.ok (some kvs)) width height = .handed out ∧
      1 ≤ out.read "ALL" ∧ out.read "ALL" ≤ m ∧
      (ScaleFactors.read (some kvs) "ALL" > m → out.read "ALL" = m) ∧
      (ScaleFactors.read (some kvs) "ALL" < 1 → out.read "ALL" = 1) ∧
      (¬ ScaleFactors.read (some kvs) "ALL" > m → ¬ ScaleFactors.read (some kvs) "ALL" < 1 →
        out.read "ALL" = ScaleFactors.read (some kvs) "ALL") := by
  have hm1 : 1 ≤ m := by
    obtain ⟨j, _, rfl⟩ := (mem_scaleList_iff m).mp (calcMaxScaleFactor_mem _ _ m hm)
    have hj0 : (0 : ℚ) ≤ (j : ℚ) := Nat.cast_nonneg j
    linarith
  generalize hs : ScaleFactors.read (some kvs) "ALL" = s
  have h10 : (1.0 : ℚ) = 1 := by norm_num
  refine ⟨some (("ALL", if s > m then m else if s < 1.0 then 1.0 else s) ::
      kvs.filter (fun kv => kv.1 ≠ "ALL")), ?_, ?_⟩
  · unfold AdjustScaleFactor
    simp only [hm, hs, ScaleFactors.assign]
  · have hv : ScaleFactors.read (some (("ALL", if s > m then m else if s < 1.0 then 1.0 else s) ::
        kvs.filter (fun kv => kv.1 ≠ "ALL"))) "ALL" =
        if s > m then m else if s < 1.0 then 1.0 else s :=
      read_assign kvs "ALL" _ _ rfl
    rw [hv, h10]
    by_cases h1 : s > m
    · rw [if_pos h1]
      exact ⟨hm1, le_refl _, fun _ => rfl, fun h => absurd (lt_trans h1 h) (not_lt.mpr hm1),
        fun h => absurd h1 h⟩
    · rw [if_neg h1]
      by_cases h2 : s < 1
      · rw [if_pos h2]
        exact ⟨le_refl _, hm1, fun h => absurd h h1, fun _ => rfl, fun _ h => absurd h2 h⟩
      · rw [if_neg h2]
        exact ⟨not_lt.mp h2, not_lt.mp h1, fun h => absurd h h1, fun h => absurd h h2,
          fun _ _ => rfl⟩

/-- At 1920x1080 (maximum 1.25) with the non-nil mapping holding the value 2: the value
handed on is 1.25. -/
theorem AdjustScaleFactor_clamps_example :
    calcMaxScaleFactor ((1920 : Nat) : ℚ) ((1080 : Nat) : ℚ) = some 1.25 ∧
    ∃ out, AdjustScaleFactor (.ok (some [("ALL", 2)])) 1920 1080 = .handed out ∧
      1 ≤ out.read "ALL" ∧ out.read "ALL" ≤ 1.25 ∧
      (ScaleFactors.read (some [("ALL", 2)]) "ALL" > 1.25 → out.read "ALL" = 1.25) ∧
      (ScaleFactors.read (some [("ALL", 2)]) "ALL" < 1 → out.read "ALL" = 1) ∧
      (¬ ScaleFactors.read (some [("ALL", 2)]) "ALL" > 1.25 →
        ¬ ScaleFactors.read (some [("ALL", 2)]) "ALL" < 1 →
        out.read "ALL" = ScaleFactors.read (some [("ALL", 2)]) "ALL") :=
  ⟨by rw [calcMaxScaleFactor_cases, maxScaleOf_eq_min]; norm_num,
   AdjustScaleFactor_clamps 1920 1080 1.25
     (by rw [calcMaxScaleFactor_cases, maxScaleOf_eq_min]; norm_num) [("ALL", 2)]⟩

/-- C5 on the code: at 1920x1080 `calcMaxScaleFactor` returns the maximum 1.25, and the
nil map that `GetScaleFactors` returns when the configuration holds no scale factors
reads "ALL" as 0, so the claim asks for a mapping with "ALL" value 1.0 to be handed to
`SetScaleFactors`; the assignment `scaleFactors["ALL"] = scaleFactor` panics instead and
no mapping is handed on. -/
theorem AdjustScaleFactor_nil_map_panics :
    calcMaxScaleFactor ((1920 : Nat) : ℚ) ((1080 : Nat) : ℚ) = some 1.25 ∧
    ScaleFactors.read none "ALL" = 0 ∧
    ScaleFactors.assign none "ALL" 1.0 = none ∧
    AdjustScaleFactor (.ok none) 1920 1080 = .panicked ∧
    ∀ out, AdjustScaleFactor (.ok none) 1920 1080 ≠ .handed out := by
  have hp := AdjustScaleFactor_nil_map 1920 1080
  refine ⟨?_, rfl, rfl, hp, ?_⟩
  · rw [calcMaxScaleFactor_cases, maxScaleOf_eq_min]; norm_num
  · intro out h
    rw [hp] at h
    cases h

/-! ## Properties of the Manager methods -/

theorem string_length_eq_zero (s : String) : s.length = 0 ↔ s = "" := by
  constructor
  · intro h
    cases s with
    | mk data =>
      have hd : data = [] := List.length_eq_zero.mp h
      subst hd
      rfl
  · intro h
    subst h
    rfl

/-- `Save` when the gate is closed: more than one output and a mode other than Custom. -/
theorem Save_gate_closed (c : Collab) (dpy : Manager)
    (h : ¬ (dpy.outputInfos.length = 1 ∨ dpy.DisplayMode = c.DisplayModeCustom)) :
    Save c dpy = ⟨none, dpy, []⟩ := by
  have h1 : dpy.outputInfos.length ≠ 1 ∧ dpy.DisplayMode ≠ c.DisplayModeCustom :=
    ⟨fun e => h (Or.inl e), fun e => h (Or.inr e)⟩
  unfold Save
  rw [if_pos h1]

/-- `Save` when the gate is open and the fingerprint is empty. -/
theorem Save_no_output (c : Collab) (dpy : Manager)
    (h : dpy.outputInfos.length = 1 ∨ dpy.DisplayMode = c.DisplayModeCustom)
    (hid : c.getMonitorsId dpy.Monitors = "") :
    Save c dpy = ⟨some "No output connected", dpy, []⟩ := by
  have h1 : ¬ (dpy.outputInfos.length ≠ 1 ∧ dpy.DisplayMode ≠ c.DisplayModeCustom) := by
    rintro ⟨a, b⟩
    rcases h with h | h
    · exact a h
    · exact b h
  unfold Save
  rw [if_neg h1]
  simp only [hid]
  rfl

/-- `Save` when the gate is open and the fingerprint is non-empty. -/
theorem Save_writes (c : Collab) (dpy : Manager)
    (h : dpy.outputInfos.length = 1 ∨ dpy.DisplayMode = c.DisplayModeCustom)
    (hid : c.getMonitorsId dpy.Monitors ≠ "") :
    Save c dpy =
      ⟨c.writeFile (dpy.config.set (c.getMonitorsId dpy.Monitors)
          ⟨dpy.Primary, c.getBaseInfos dpy.Monitors⟩),
        { dpy with config := (dpy.config.set (c.getMonitorsId dpy.Monitors)
          ⟨dpy.Primary, c.getBaseInfos dpy.Monitors⟩) },
        [.configSet (c.getMonitorsId dpy.Monitors) ⟨dpy.Primary, c.getBaseInfos dpy.Monitors⟩,
          .configWriteFile]⟩ := by
  have h1 : ¬ (dpy.outputInfos.length ≠ 1 ∧ dpy.DisplayMode ≠ c.DisplayModeCustom) := by
    rintro ⟨a, b⟩
    rcases h with h | h
    · exact a h
    · exact b h
  have h2 : ¬ (c.getMonitorsId dpy.Monitors).length = 0 :=
    fun e => hid ((string_length_eq_zero _).mp e)
  unfold Save
  rw [if_neg h1]
  simp only [h2, if_false]

theorem ConfigStore.get_set_self (cfg : ConfigStore) (id : String) (entry : configMonitor) :
    (cfg.set id entry).get id = some entry := by
  simp [ConfigStore.get, ConfigStore.set, List.lookup]

theorem lookup_filter_ne (cfg : ConfigStore) (id key : String) (hk : key ≠ id) :
    List.lookup key (cfg.filter (fun kv => kv.1 ≠ id)) = List.lookup key cfg := by
  induction cfg with
  | nil => rfl
  | cons kv rest ih =>
    obtain ⟨k, v⟩ := kv
    by_cases hkv : k = id
    · have hne : (key == k) = false := by rw [hkv]; simpa using hk
      rw [List.filter_cons_of_neg (by simp [hkv]), ih, List.lookup_cons, hne]
    · rw [List.filter_cons_of_pos (by simp [hkv]), List.lookup_cons, List.lookup_cons, ih]

theorem ConfigStore.get_set_other (cfg : ConfigStore) (id key : String)
    (entry : configMonitor) (hk : key ≠ id) : (cfg.set id entry).get key = cfg.get key := by
  have hbeq : (key == id) = false := by simpa using hk
  unfold ConfigStore.get ConfigStore.set
  rw [List.lookup_cons, hbeq]
  exact lookup_filter_ne cfg id key hk

theorem ConfigStore.count_set (cfg : ConfigStore) (id : String) (entry : configMonitor) :
    ((cfg.set id entry).filter (fun kv => kv.1 = id)).length = 1 := by
  have h : (cfg.filter (fun kv => kv.1 ≠ id)).filter (fun kv => kv.1 = id) = [] := by
    rw [List.filter_filter, List.filter_eq_nil_iff]
    intro kv _
    simp
  simp [ConfigStore.set, List.filter, h]

/-- The switch statement of `SwitchMode` takes the `default` branch exactly for a mode
that is none of the four constants. -/
theorem modeSwitch_invalid (c : Collab) (mode : Nat) (name : String) (dpy : Manager)
    (h1 : mode ≠ c.DisplayModeMirror) (h2 : mode ≠ c.DisplayModeExtend)
    (h3 : mode ≠ c.DisplayModeOnlyOne) (h4 : mode ≠ c.DisplayModeCustom) :
    modeSwitch c mode name dpy = none := by
  unfold modeSwitch
  rw [if_neg h1, if_neg h2, if_neg h3, if_neg h4]

theorem SwitchMode_of_invalid (c : Collab) (mode : Nat) (name : String) (dpy : Manager)
    (h : modeSwitch c mode name dpy = none) :
    SwitchMode c mode name dpy = ⟨some ("Invalid display mode: " ++ toString mode), dpy, []⟩ := by
  unfold SwitchMode
  rw [h]

theorem SwitchMode_of_error (c : Collab) (mode : Nat) (name : String) (dpy : Manager)
    (call : Call) (e : String) (d1 : Manager)
    (h : modeSwitch c mode name dpy = some (call, some e, d1)) :
    SwitchMode c mode name dpy = ⟨some e, d1, [call]⟩ := by
  unfold SwitchMode
  rw [h]

theorem SwitchMode_of_ok (c : Collab) (mode : Nat) (name : String) (dpy : Manager)
    (call : Call) (d1 : Manager)
    (h : modeSwitch c mode name dpy = some (call, none, d1)) :
    SwitchMode c mode name dpy =
      ⟨(Save c (setPropDisplayMode mode d1)).err, (Save c (setPropDisplayMode mode d1)).dpy,
        [call, .setPropDisplayMode mode, .Save] ++ (Save c (setPropDisplayMode mode d1)).calls⟩ := by
  unfold SwitchMode
  rw [h]

/-- The call recorded by the switch statement is one of the four mode-specific switches. -/
theorem modeSwitch_call (c : Collab) (mode : Nat) (name : String) (dpy : Manager)
    (call : Call) (r : Option String × Manager)
    (h : modeSwitch c mode name dpy = some (call, r)) :
    call = .switchToMirror ∨ call = .switchToExtend ∨ call = .switchToOnlyOne name ∨
      call = .switchToCustom := by
  unfold modeSwitch at h
  split_ifs at h <;> simp only [Option.some.injEq, Prod.mk.injEq] at h
  · exact Or.inl h.1.symm
  · exact Or.inr (Or.inl h.1.symm)
  · exact Or.inr (Or.inr (Or.inl h.1.symm))
  · exact Or.inr (Or.inr (Or.inr h.1.symm))

/-- The store writes of one `Save`: present exactly when the gate is open and the
fingerprint is non-empty. -/
theorem Save_storeWrite_iff (c : Collab) (dpy : Manager) :
    (∃ w ∈ (Save c dpy).calls, w.isStoreWrite = true) ↔
      ((dpy.outputInfos.length = 1 ∨ dpy.DisplayMode = c.DisplayModeCustom) ∧
        c.getMonitorsId dpy.Monitors ≠ "") := by
  by_cases hg : dpy.outputInfos.length = 1 ∨ dpy.DisplayMode = c.DisplayModeCustom
  · by_cases hid : c.getMonitorsId dpy.Monitors = ""
    · rw [Save_no_output c dpy hg hid]
      exact ⟨fun hex => (by obtain ⟨w, hw, _⟩ := hex; cases hw), fun h => absurd hid h.2⟩
    · rw [Save_writes c dpy hg hid]
      exact ⟨fun _ => ⟨hg, hid⟩, fun _ => ⟨.configWriteFile, by simp, rfl⟩⟩
  · rw [Save_gate_closed c dpy hg]
    exact ⟨fun hex => (by obtain ⟨w, hw, _⟩ := hex; cases hw), fun h => absurd h.1 hg⟩

/-- C4 on the code: in the reset scenario (dirty flag set, fingerprint `A,B`, an entry
stored under `A,B`) `ResetChanges` looks up the key `id`, fails with
`No config found for 'A,B'`, and leaves monitor `B` and the primary as they were.  The
rest of the method does restore them: with the same entry filed under the key `id` the
call succeeds, monitor `B` is back at 1280x1024 and the primary is `A`. -/
theorem ResetChanges_misses_stored_entry :
    resetDpy.HasChanged = true ∧
    sampleCollab.getMonitorsId resetDpy.Monitors = "A,B" ∧
    resetDpy.config.get "A,B" = some storedAB ∧
    ResetChanges sampleCollab resetDpy =
      ⟨some "No config found for \x27A,B\x27", resetDpy, [.configGet "id"]⟩ ∧
    (ResetChanges sampleCollab resetDpyKeyId).err = none ∧
    (ResetChanges sampleCollab resetDpyKeyId).dpy.Monitors = [monitorA, monitorB] ∧
    (ResetChanges sampleCollab resetDpyKeyId).dpy.Primary = "A" := by
  refine ⟨rfl, ?_, ?_, ?_, ?_, ?_, ?_⟩ <;> decide

/-- C6: `Save` performs a ConfigStore write exactly when the gate holds (one output, or
mode Custom) and the fingerprint is non-empty; with the gate closed it returns success,
changes nothing and makes no call; when it writes it makes one `set` under the current
fingerprint with the current primary and base infos, followed by one `writeFile`, after
which the store holds exactly one entry for the fingerprint, that entry, and every other
key is as before. -/
theorem Save_writes_iff_gate (c : Collab) (dpy : Manager) :
    ((∃ w ∈ (Save c dpy).calls, w.isStoreWrite = true) ↔
      ((dpy.outputInfos.length = 1 ∨ dpy.DisplayMode = c.DisplayModeCustom) ∧
        c.getMonitorsId dpy.Monitors ≠ "")) ∧
    (dpy.outputInfos.length ≠ 1 ∧ dpy.DisplayMode ≠ c.DisplayModeCustom →
      Save c dpy = ⟨none, dpy, []⟩) ∧
    ((dpy.outputInfos.length = 1 ∨ dpy.DisplayMode = c.DisplayModeCustom) ∧
        c.getMonitorsId dpy.Monitors ≠ "" →
      (Save c dpy).calls =
        [.configSet (c.getMonitorsId dpy.Monitors) ⟨dpy.Primary, c.getBaseInfos dpy.Monitors⟩,
          .configWriteFile] ∧
      (Save c dpy).dpy.config.get (c.getMonitorsId dpy.Monitors) =
        some ⟨dpy.Primary, c.getBaseInfos dpy.Monitors⟩ ∧
      ((Save c dpy).dpy.config.filter
        (fun kv => kv.1 = c.getMonitorsId dpy.Monitors)).length = 1 ∧
      (∀ key, key ≠ c.getMonitorsId dpy.Monitors →
        (Save c dpy).dpy.config.get key = dpy.config.get key) ∧
      (Save c dpy).err = c.writeFile (Save c dpy).dpy.config) ∧
    (¬ ((dpy.outputInfos.length = 1 ∨ dpy.DisplayMode = c.DisplayModeCustom) ∧
        c.getMonitorsId dpy.Monitors ≠ "") →
      (Save c dpy).dpy = dpy ∧ (Save c dpy).calls = []) := by
  refine ⟨Save_storeWrite_iff c dpy, ?_, ?_, ?_⟩
  · intro h
    exact Save_gate_closed c dpy (fun hg => hg.elim h.1 h.2)
  · rintro ⟨hg, hid⟩
    rw [Save_writes c dpy hg hid]
    exact ⟨rfl, ConfigStore.get_set_self _ _ _, ConfigStore.count_set _ _ _,
      fun key hk => ConfigStore.get_set_other _ _ _ _ hk, rfl⟩
  · intro h
    by_cases hg : dpy.outputInfos.length = 1 ∨ dpy.DisplayMode = c.DisplayModeCustom
    · have hid : c.getMonitorsId dpy.Monitors = "" := by
        by_contra hne
        exact h ⟨hg, hne⟩
      rw [Save_no_output c dpy hg hid]
      exact ⟨rfl, rfl⟩
    · rw [Save_gate_closed c dpy hg]
      exact ⟨rfl, rfl⟩

/-- C6, on two monitors: in mode Extend `Save` makes no call and changes nothing; in
mode Custom it makes one `set` under `A,B` and one `writeFile`. -/
theorem Save_writes_iff_gate_witness :
    Save sampleCollab extendDpy = ⟨none, extendDpy, []⟩ ∧
    (Save sampleCollab customDpy).calls =
      [.configSet "A,B" ⟨"A", sampleCollab.getBaseInfos customDpy.Monitors⟩, .configWriteFile] ∧
    (Save sampleCollab customDpy).dpy.config = [("A,B", storedAB)] :=
  ⟨(Save_writes_iff_gate sampleCollab extendDpy).2.1 (by decide),
   ((Save_writes_iff_gate sampleCollab customDpy).2.2.1 (by decide)).1,
   by decide⟩

/-- C7 as stated fails: switching two monitors to Custom changes the contents of the
store and performs a `set` and a `writeFile`. -/
theorem SwitchMode_custom_writes_store :
    (SwitchMode sampleCollab sampleCollab.DisplayModeCustom "" extendDpy).dpy.config ≠
      extendDpy.config ∧
    Call.configSet "A,B" storedAB ∈
      (SwitchMode sampleCollab sampleCollab.DisplayModeCustom "" extendDpy).calls ∧
    Call.configWriteFile ∈
      (SwitchMode sampleCollab sampleCollab.DisplayModeCustom "" extendDpy).calls := by
  decide

/-- C7 amended: `SwitchMode` writes to the ConfigStore only through the `Save` it calls
after a successful switch.  A `set` or `writeFile` is performed exactly when the mode is
one of the four, the mode-specific switch returns no error, and in the state it leaves
one output is connected or the mode is Custom, with a non-empty fingerprint.  For an
invalid mode the state is unchanged; after a failed switch the state is the one the switch
left; after a successful switch the state and the calls that follow are those of `Save`
run with DisplayMode set to the mode. -/
theorem SwitchMode_store_writes (c : Collab) (mode : Nat) (name : String) (dpy : Manager) :
    ((∃ w ∈ (SwitchMode c mode name dpy).calls, w.isStoreWrite = true) ↔
      ∃ call d1, modeSwitch c mode name dpy = some (call, none, d1) ∧
        (d1.outputInfos.length = 1 ∨ mode = c.DisplayModeCustom) ∧
        c.getMonitorsId d1.Monitors ≠ "") ∧
    (modeSwitch c mode name dpy = none →
      (SwitchMode c mode name dpy).dpy = dpy ∧ (SwitchMode c mode name dpy).calls = []) ∧
    (∀ call e d1, modeSwitch c mode name dpy = some (call, some e, d1) →
      (SwitchMode c mode name dpy).dpy = d1 ∧ (SwitchMode c mode name dpy).calls = [call]) ∧
    (∀ call d1, modeSwitch c mode name dpy = some (call, none, d1) →
      (SwitchMode c mode name dpy).dpy = (Save c (setPropDisplayMode mode d1)).dpy ∧
      (SwitchMode c mode name dpy).calls =
        [call, .setPropDisplayMode mode, .Save] ++ (Save c (setPropDisplayMode mode d1)).calls) := by
  refine ⟨?_, ?_, ?_, ?_⟩
  · rcases hsw : modeSwitch c mode name dpy with _ | ⟨call, _ | e, d1⟩
    · rw [SwitchMode_of_invalid c mode name dpy hsw]
      exact ⟨fun hex => (by obtain ⟨w, hw, _⟩ := hex; cases hw),
        fun hex => (by obtain ⟨_, _, h, _⟩ := hex; cases h)⟩
    · rw [SwitchMode_of_ok c mode name dpy call d1 hsw]
      have hcall := modeSwitch_call c mode name dpy call _ hsw
      have hsave := Save_storeWrite_iff c (setPropDisplayMode mode d1)
      constructor
      · rintro ⟨w, hw, hws⟩
        simp only [List.cons_append, List.nil_append, List.mem_cons] at hw
        rcases hw with hw | hw | hw | hw
        · subst hw
          rcases hcall with h | h | h | h <;> rw [h] at hws <;> cases hws
        · subst hw; cases hws
        · subst hw; cases hws
        · exact ⟨call, d1, rfl, hsave.mp ⟨w, hw, hws⟩⟩
      · rintro ⟨call2, d2, h, hg, hid⟩
        simp only [Option.some.injEq, Prod.mk.injEq, true_and] at h
        obtain ⟨_, rfl⟩ := h
        obtain ⟨w, hw, hws⟩ := hsave.mpr ⟨hg, hid⟩
        exact ⟨w, by simp [hw], hws⟩
    · rw [SwitchMode_of_error c mode name dpy call e d1 hsw]
      constructor
      · rintro ⟨w, hw, hws⟩
        simp only [List.mem_singleton] at hw
        subst hw
        rcases modeSwitch_call c mode name dpy w _ hsw with h | h | h | h <;>
          rw [h] at hws <;> cases hws
      · rintro ⟨_, _, h, _⟩
        simp at h
  · intro h
    rw [SwitchMode_of_invalid c mode name dpy h]
    exact ⟨rfl, rfl⟩
  · intro call e d1 h
    rw [SwitchMode_of_error c mode name dpy call e d1 h]
    exact ⟨rfl, rfl⟩
  · intro call d1 h
    rw [SwitchMode_of_ok c mode name dpy call d1 h]
    exact ⟨rfl, rfl⟩

/-- C7 amended, on two monitors: the switch to Custom succeeds, so the `Save` that follows
writes; the switch to OnlyOne with an unknown name fails and nothing is written. -/
theorem SwitchMode_store_writes_witness :
    (∃ w ∈ (SwitchMode sampleCollab 0 "" extendDpy).calls, w.isStoreWrite = true) ∧
    (SwitchMode sampleCollab 3 "nonexistent" extendDpy).dpy = extendDpy ∧
    (SwitchMode sampleCollab 3 "nonexistent" extendDpy).calls =
      [.switchToOnlyOne "nonexistent"] :=
  ⟨(SwitchMode_store_writes sampleCollab 0 "" extendDpy).1.mpr
      ⟨.switchToCustom, extendDpy, by decide, by decide, by decide⟩,
   (SwitchMode_store_writes sampleCollab 3 "nonexistent" extendDpy).2.2.1
      (.switchToOnlyOne "nonexistent") "unknown monitor" extendDpy (by decide)⟩

/-- C8: when the mode is none of Mirror, Extend, OnlyOne, Custom, `SwitchMode` runs no
mode-specific switch, returns the invalid-mode error and leaves the whole state unchanged,
with no call made.  When the mode-specific switch returns an error, `SwitchMode` returns
that error, the state is the one the switch left, the only call made is the switch (no
`setPropDisplayMode`, no `Save`, no store write), and DisplayMode is unchanged if the
switch did not change it. -/
theorem SwitchMode_failure (c : Collab) (mode : Nat) (name : String) (dpy : Manager) :
    (mode ≠ c.DisplayModeMirror → mode ≠ c.DisplayModeExtend →
      mode ≠ c.DisplayModeOnlyOne → mode ≠ c.DisplayModeCustom →
      modeSwitch c mode name dpy = none ∧
      SwitchMode c mode name dpy =
        ⟨some ("Invalid display mode: " ++ toString mode), dpy, []⟩) ∧
    (∀ call e d1, modeSwitch c mode name dpy = some (call, some e, d1) →
      SwitchMode c mode name dpy = ⟨some e, d1, [call]⟩ ∧
      Call.Save ∉ (SwitchMode c mode name dpy).calls ∧
      Call.setPropDisplayMode mode ∉ (SwitchMode c mode name dpy).calls ∧
      (∀ w ∈ (SwitchMode c mode name dpy).calls, w.isStoreWrite = false) ∧
      (d1.DisplayMode = dpy.DisplayMode →
        (SwitchMode c mode name dpy).dpy.DisplayMode = dpy.DisplayMode)) := by
  refine ⟨?_, ?_⟩
  · intro h1 h2 h3 h4
    have h := modeSwitch_invalid c mode name dpy h1 h2 h3 h4
    exact ⟨h, SwitchMode_of_invalid c mode name dpy h⟩
  · intro call e d1 h
    have hcall := modeSwitch_call c mode name dpy call _ h
    rw [SwitchMode_of_error c mode name dpy call e d1 h]
    refine ⟨rfl, ?_, ?_, ?_, fun hd => hd⟩
    · rcases hcall with h | h | h | h <;> rw [h] <;> simp
    · rcases hcall with h | h | h | h <;> rw [h] <;> simp
    · intro w hw
      simp only [List.mem_singleton] at hw
      subst hw
      rcases hcall with h | h | h | h <;> rw [h] <;> rfl

/-- C8, on two monitors in Extend: mode 9 is rejected and `OnlyOne` with an unknown
monitor name fails; both leave the state, and so DisplayMode, as it was. -/
theorem SwitchMode_failure_witness :
    SwitchMode sampleCollab 9 "" extendDpy =
      ⟨some "Invalid display mode: 9", extendDpy, []⟩ ∧
    SwitchMode sampleCollab 3 "nonexistent" extendDpy =
      ⟨some "unknown monitor", extendDpy, [.switchToOnlyOne "nonexistent"]⟩ ∧
    (SwitchMode sampleCollab 3 "nonexistent" extendDpy).dpy.DisplayMode =
      extendDpy.DisplayMode :=
  ⟨((SwitchMode_failure sampleCollab 9 "" extendDpy).1
      (by decide) (by decide) (by decide) (by decide)).2,
   ((SwitchMode_failure sampleCollab 3 "nonexistent" extendDpy).2
      (.switchToOnlyOne "nonexistent") "unknown monitor" extendDpy (by decide)).1,
   ((SwitchMode_failure sampleCollab 3 "nonexistent" extendDpy).2
      (.switchToOnlyOne "nonexistent") "unknown monitor" extendDpy (by decide)).2.2.2.2 rfl⟩

/-- C9: with `HasChanged` false, `ApplyChanges` and `ResetChanges` each return success,
leave the whole state unchanged and make no call (no `doApply`, no `rotateInputPointor`,
no config lookup, no monitor or primary update). -/
theorem noChange_noop (c : Collab) (dpy : Manager) (h : dpy.HasChanged = false) :
    ApplyChanges c dpy = ⟨none, dpy, []⟩ ∧ ResetChanges c dpy = ⟨none, dpy, []⟩ := by
  constructor
  · simp [ApplyChanges, h]
  · simp [ResetChanges, h]

/-- C9, on the two-monitor state with a clear dirty flag. -/
theorem noChange_noop_witness :
    extendDpy.HasChanged = false ∧
    ApplyChanges sampleCollab extendDpy = ⟨none, extendDpy, []⟩ ∧
    ResetChanges sampleCollab extendDpy = ⟨none, extendDpy, []⟩ :=
  ⟨rfl, noChange_noop sampleCollab extendDpy rfl⟩

end Display
